import Mathlib

/-!
Shallow embedding of the `atoma-demo` Linera application contract
(`src/lib.rs`, `src/state.rs`, `src/contract.rs`).

The contract keeps a set `active_atoma_nodes : SetView<PublicKey>` and an
append-only `chat_log : LogView<ChatInteraction>`.  Operations and
cross-chain messages are executed one at a time; a Rust `assert!` failure
(or a missing message id) aborts the whole execution with no state change
and no outbound messages, which we model by returning `none`.
-/

namespace AtomaDemo

/-- `PublicKey([u8; 32])` from `src/lib.rs`: an opaque 32-byte value with
byte-wise equality. -/
structure PublicKey where
  bytes : Mathlib.Vector (Fin 256) 32
deriving DecidableEq

/-- `ChatInteraction` from `src/lib.rs`: one prompt/response exchange. -/
structure ChatInteraction where
  prompt : String
  response : String
deriving DecidableEq

/-- A chain identity (`ChainId` in the Linera SDK): opaque, compared only
for equality. -/
structure ChainId where
  id : Nat
deriving DecidableEq

/-- `Operation` from `src/lib.rs`.  Note that the `UpdateNodes` payloads are
`Vec<PublicKey>`, i.e. lists that may contain repeated keys. -/
inductive Operation where
  | UpdateNodes (add : List PublicKey) (remove : List PublicKey)
  | LogChatInteraction (interaction : ChatInteraction)
deriving DecidableEq

/-- `Message` from `src/contract.rs`: the cross-chain messages. -/
inductive Message where
  | VerifySignature (interaction : ChatInteraction)
  | LogVerifiedChatInteraction (interaction : ChatInteraction)
deriving DecidableEq

/-- One call to `runtime.send_message(destination, message)`. -/
structure OutboundMessage where
  destination : ChainId
  message : Message
deriving DecidableEq

/-- The application state from `src/state.rs`: `active_atoma_nodes` is a
`SetView<PublicKey>` (a set, no duplicates), `chat_log` is a
`LogView<ChatInteraction>` (an append-only sequence). -/
structure Application where
  active_atoma_nodes : Finset PublicKey
  chat_log : List ChatInteraction
deriving DecidableEq

/-- The runtime facts the contract reads: `runtime.chain_id()`,
`runtime.application_id().creation.chain_id`, and — when handling an
incoming message — the sender chain recorded in
`runtime.message_id().chain_id` (`none` outside message handling). -/
structure Runtime where
  chain_id : ChainId
  creation_chain_id : ChainId
  message_sender : Option ChainId
deriving DecidableEq

/-- `ApplicationContract::assert_key_sets_are_disjoint` from
`src/contract.rs`, as the boolean it checks: pick the smaller of the two
slices, then test that no element of the larger one is contained in it. -/
def assert_key_sets_are_disjoint (left right : List PublicKey) : Bool :=
  let sets := if left.length < right.length then (left, right) else (right, left)
  let smallest_set := sets.1
  let largest_set := sets.2
  largest_set.all fun key => !(smallest_set.contains key)

/-- `ApplicationContract::update_nodes` from `src/contract.rs`: assert the
executing chain is the creation chain, assert the add/remove key sets are
disjoint, then remove every key in `nodes_to_remove` from the set
(`SetView::remove` of an absent key succeeds) and insert every key in
`nodes_to_add` (`SetView::insert` of a present key is a no-op).  A failed
assertion aborts the execution: `none`. -/
def update_nodes (runtime : Runtime) (state : Application)
    (nodes_to_add nodes_to_remove : List PublicKey) :
    Option (Application × List OutboundMessage) :=
  if runtime.chain_id = runtime.creation_chain_id then
    if assert_key_sets_are_disjoint nodes_to_add nodes_to_remove then
      let after_remove := nodes_to_remove.foldl
        (fun nodes node => nodes.erase node) state.active_atoma_nodes
      let after_add := nodes_to_add.foldl
        (fun nodes node => insert node nodes) after_remove
      some ({ state with active_atoma_nodes := after_add }, [])
    else none
  else none

/-- `ApplicationContract::log_chat_interaction` from `src/contract.rs`:
touch no local state and send `Message::VerifySignature(interaction)` to
the application's creation chain. -/
def log_chat_interaction (runtime : Runtime) (state : Application)
    (interaction : ChatInteraction) :
    Option (Application × List OutboundMessage) :=
  some (state, [⟨runtime.creation_chain_id, Message.VerifySignature interaction⟩])

/-- `ApplicationContract::verify_signature` from `src/contract.rs`: read the
requester chain from the incoming message's id (`expect` aborts when there
is none, which cannot happen while handling a message) and send
`Message::LogVerifiedChatInteraction(interaction)` back to it.  No local
state is touched and no roster check is made. -/
def verify_signature (runtime : Runtime) (state : Application)
    (interaction : ChatInteraction) :
    Option (Application × List OutboundMessage) :=
  match runtime.message_sender with
  | some requester_chain_id =>
      some (state, [⟨requester_chain_id, Message.LogVerifiedChatInteraction interaction⟩])
  | none => none

/-- `ApplicationContract::log_verified_chat_interaction` from
`src/contract.rs`: push the interaction onto the chat log. -/
def log_verified_chat_interaction (state : Application)
    (interaction : ChatInteraction) :
    Option (Application × List OutboundMessage) :=
  some ({ state with chat_log := state.chat_log ++ [interaction] }, [])

/-- `Contract::execute_operation` from `src/contract.rs`. -/
def execute_operation (runtime : Runtime) (state : Application) :
    Operation → Option (Application × List OutboundMessage)
  | Operation.UpdateNodes add remove => update_nodes runtime state add remove
  | Operation.LogChatInteraction interaction =>
      log_chat_interaction runtime state interaction

/-- `Contract::execute_message` from `src/contract.rs`. -/
def execute_message (runtime : Runtime) (state : Application) :
    Message → Option (Application × List OutboundMessage)
  | Message.VerifySignature interaction =>
      verify_signature runtime state interaction
  | Message.LogVerifiedChatInteraction interaction =>
      log_verified_chat_interaction state interaction

/-- Sequential processing of a list of delivered messages, accumulating the
outbound messages; an aborted handler aborts the whole run. -/
def run_messages (runtime : Runtime) (state : Application) :
    List Message → Option (Application × List OutboundMessage)
  | [] => some (state, [])
  | msg :: rest =>
      match execute_message runtime state msg with
      | none => none
      | some (state2, out) =>
          match run_messages runtime state2 rest with
          | none => none
          | some (state3, outs) => some (state3, out ++ outs)

/-! Helper lemmas about the disjointness check and the roster folds. -/

/-- The boolean computed by `assert_key_sets_are_disjoint` holds exactly
when the two key lists share no key. -/
theorem assert_key_sets_are_disjoint_iff (left right : List PublicKey) :
    assert_key_sets_are_disjoint left right = true ↔
      ∀ k, k ∈ left → k ∉ right := by
  unfold assert_key_sets_are_disjoint
  by_cases h : left.length < right.length <;>
    simp only [h, if_true, if_false, List.all_eq_true, Bool.not_eq_true',
      List.contains, List.elem_eq_mem, decide_eq_false_iff_not, reduceIte]
  exact ⟨fun hh k hk hk2 => hh k hk2 hk, fun hh k hk hk2 => hh k hk2 hk⟩

/-- Membership after folding `Finset.erase` over a list. -/
theorem mem_foldl_erase (l : List PublicKey) (s : Finset PublicKey)
    (x : PublicKey) :
    x ∈ l.foldl (fun nodes node => nodes.erase node) s ↔ x ∈ s ∧ x ∉ l := by
  induction l generalizing s with
  | nil => simp
  | cons a l ih =>
      simp only [List.foldl_cons, ih, Finset.mem_erase, List.mem_cons]
      tauto

/-- Membership after folding `insert` over a list. -/
theorem mem_foldl_insert (l : List PublicKey) (s : Finset PublicKey)
    (x : PublicKey) :
    x ∈ l.foldl (fun nodes node => insert node nodes) s ↔ x ∈ l ∨ x ∈ s := by
  induction l generalizing s with
  | nil => simp
  | cons a l ih =>
      simp only [List.foldl_cons, ih, Finset.mem_insert, List.mem_cons]
      tauto

/-- A concrete public key whose 32 bytes all equal `b`, for witnesses. -/
def pk (b : Fin 256) : PublicKey :=
  ⟨⟨List.replicate 32 b, List.length_replicate 32 b⟩⟩

/-- C1: on the creation chain, with add/remove payloads sharing no key,
`update_nodes` succeeds with no outbound message, leaves the log alone, and
the new roster is the old roster minus the removed keys, plus the added
keys: removals are applied before additions, removing an absent key and
adding a present key are no-ops (which the set difference and union
capture exactly). -/
theorem C1_update_nodes_remove_then_add (runtime : Runtime)
    (state : Application) (add remove : List PublicKey)
    (hchain : runtime.chain_id = runtime.creation_chain_id)
    (hdisj : ∀ k, k ∈ add → k ∉ remove) :
    ∃ state', update_nodes runtime state add remove = some (state', [])
      ∧ state'.chat_log = state.chat_log
      ∧ state'.active_atoma_nodes
          = state.active_atoma_nodes \ remove.toFinset ∪ add.toFinset := by
  have hguard : assert_key_sets_are_disjoint add remove = true :=
    (assert_key_sets_are_disjoint_iff add remove).mpr hdisj
  refine ⟨Application.mk
      (add.foldl (fun nodes node => insert node nodes)
        (remove.foldl (fun nodes node => nodes.erase node)
          state.active_atoma_nodes))
      state.chat_log, ?_, rfl, ?_⟩
  · unfold update_nodes
    rw [if_pos hchain, if_pos hguard]
  · ext x
    simp only [mem_foldl_insert, mem_foldl_erase, Finset.mem_union,
      Finset.mem_sdiff, List.mem_toFinset]
    tauto

/-- Witness for C1: roster `{pk 1}`, add `[pk 2]`, remove `[pk 1]` on the
creation chain. -/
theorem C1_update_nodes_remove_then_add_witness :
    ∃ state', update_nodes ⟨⟨0⟩, ⟨0⟩, none⟩ ⟨{pk 1}, []⟩ [pk 2] [pk 1]
        = some (state', [])
      ∧ state'.chat_log = (⟨{pk 1}, []⟩ : Application).chat_log
      ∧ state'.active_atoma_nodes
          = (⟨{pk 1}, []⟩ : Application).active_atoma_nodes \ [pk 1].toFinset
              ∪ [pk 2].toFinset :=
  C1_update_nodes_remove_then_add ⟨⟨0⟩, ⟨0⟩, none⟩ ⟨{pk 1}, []⟩ [pk 2] [pk 1]
    rfl (by decide)

/-- C2: executing `UpdateNodes` on a chain other than the creation chain is
fatally rejected before any mutation (`none`: the whole execution aborts,
so the roster and log are untouched and no message is sent). -/
theorem C2_update_nodes_wrong_chain (runtime : Runtime) (state : Application)
    (add remove : List PublicKey)
    (hchain : runtime.chain_id ≠ runtime.creation_chain_id) :
    execute_operation runtime state (Operation.UpdateNodes add remove)
      = none := by
  simp [execute_operation, update_nodes, hchain]

/-- Witness for C2: chain `⟨1⟩` differs from creation chain `⟨0⟩`. -/
theorem C2_update_nodes_wrong_chain_witness :
    execute_operation ⟨⟨1⟩, ⟨0⟩, none⟩ ⟨∅, []⟩
      (Operation.UpdateNodes [pk 1] []) = none :=
  C2_update_nodes_wrong_chain ⟨⟨1⟩, ⟨0⟩, none⟩ ⟨∅, []⟩ [pk 1] [] (by decide)

/-- C3: an `UpdateNodes` whose add and remove payloads share a key is
fatally rejected with no partial effect (`none`), whatever the position of
the shared key and whichever list is shorter, and on any chain. -/
theorem C3_update_nodes_overlap_rejected (runtime : Runtime)
    (state : Application) (add remove : List PublicKey) (k : PublicKey)
    (hk_add : k ∈ add) (hk_remove : k ∈ remove) :
    execute_operation runtime state (Operation.UpdateNodes add remove)
      = none := by
  have hguard : assert_key_sets_are_disjoint add remove = false := by
    rw [Bool.eq_false_iff]
    intro h
    exact ((assert_key_sets_are_disjoint_iff add remove).mp h) k hk_add hk_remove
  by_cases hchain : runtime.chain_id = runtime.creation_chain_id <;>
    simp [execute_operation, update_nodes, hchain, hguard]

/-- Witness for C3: `pk 1` appears in both payloads. -/
theorem C3_update_nodes_overlap_rejected_witness :
    execute_operation ⟨⟨0⟩, ⟨0⟩, none⟩ ⟨∅, []⟩
      (Operation.UpdateNodes [pk 1] [pk 2, pk 1]) = none :=
  C3_update_nodes_overlap_rejected ⟨⟨0⟩, ⟨0⟩, none⟩ ⟨∅, []⟩ [pk 1]
    [pk 2, pk 1] (pk 1) (by decide) (by decide)

/-- C8: the disjointness check is symmetric in its two arguments; which
list is picked as the smaller one to drive the membership tests does not
change the result. -/
theorem C8_disjointness_symmetric (A B : List PublicKey) :
    assert_key_sets_are_disjoint A B = assert_key_sets_are_disjoint B A := by
  by_cases h : ∀ k, k ∈ A → k ∉ B
  · rw [(assert_key_sets_are_disjoint_iff A B).mpr h,
      (assert_key_sets_are_disjoint_iff B A).mpr (fun k hk hk2 => h k hk2 hk)]
  · have hA : assert_key_sets_are_disjoint A B = false :=
      Bool.eq_false_iff.mpr fun ht =>
        h ((assert_key_sets_are_disjoint_iff A B).mp ht)
    have hB : assert_key_sets_are_disjoint B A = false :=
      Bool.eq_false_iff.mpr fun ht =>
        h fun k hk hk2 =>
          (assert_key_sets_are_disjoint_iff B A).mp ht k hk2 hk
    rw [hA, hB]

/-- C9: on the creation chain, applying `UpdateNodes {add := [X],
remove := []}` twice yields exactly the roster the first application
yields. -/
theorem C9_update_nodes_add_idempotent (c : ChainId) (state : Application)
    (X : PublicKey) :
    ∃ state₁ state₂,
      update_nodes ⟨c, c, none⟩ state [X] [] = some (state₁, [])
      ∧ update_nodes ⟨c, c, none⟩ state₁ [X] [] = some (state₂, [])
      ∧ state₂ = state₁ := by
  refine ⟨Application.mk (insert X state.active_atoma_nodes) state.chat_log,
    Application.mk (insert X (insert X state.active_atoma_nodes))
      state.chat_log, ?_, ?_, ?_⟩
  · unfold update_nodes
    rw [if_pos rfl,
      if_pos (show assert_key_sets_are_disjoint [X] [] = true from rfl)]
    rfl
  · unfold update_nodes
    rw [if_pos rfl,
      if_pos (show assert_key_sets_are_disjoint [X] [] = true from rfl)]
    rfl
  · simp [Finset.insert_idem]

/-- C4: the full round trip for an interaction `I` submitted on requester
chain `R` with creation chain `C` distinct from `R`: the submission on `R`
changes nothing locally and sends `VerifySignature I` to `C`; handling it
on `C` (sender metadata `R`) leaves `C`'s state unchanged and sends
`LogVerifiedChatInteraction I` back to `R`; handling that on `R` appends
exactly `I` to `R`'s log and changes nothing else. -/
theorem C4_round_trip_protocol (R C : ChainId) (rState cState : Application)
    (I : ChatInteraction) (_hRC : R ≠ C) :
    execute_operation ⟨R, C, none⟩ rState (Operation.LogChatInteraction I)
        = some (rState, [⟨C, Message.VerifySignature I⟩])
    ∧ execute_message ⟨C, C, some R⟩ cState (Message.VerifySignature I)
        = some (cState, [⟨R, Message.LogVerifiedChatInteraction I⟩])
    ∧ execute_message ⟨R, C, some C⟩ rState
          (Message.LogVerifiedChatInteraction I)
        = some (Application.mk rState.active_atoma_nodes
            (rState.chat_log ++ [I]), []) :=
  ⟨rfl, rfl, rfl⟩

/-- Witness for C4: requester `⟨1⟩`, creation chain `⟨0⟩`, the spec's
concrete scenario interaction. -/
theorem C4_round_trip_protocol_witness :
    execute_operation ⟨⟨1⟩, ⟨0⟩, none⟩ ⟨∅, []⟩
        (Operation.LogChatInteraction ⟨"2+2", "4"⟩)
        = some (⟨∅, []⟩, [⟨⟨0⟩, Message.VerifySignature ⟨"2+2", "4"⟩⟩])
    ∧ execute_message ⟨⟨0⟩, ⟨0⟩, some ⟨1⟩⟩ ⟨∅, []⟩
          (Message.VerifySignature ⟨"2+2", "4"⟩)
        = some (⟨∅, []⟩,
            [⟨⟨1⟩, Message.LogVerifiedChatInteraction ⟨"2+2", "4"⟩⟩])
    ∧ execute_message ⟨⟨1⟩, ⟨0⟩, some ⟨0⟩⟩ ⟨∅, []⟩
          (Message.LogVerifiedChatInteraction ⟨"2+2", "4"⟩)
        = some (⟨∅, [⟨"2+2", "4"⟩]⟩, []) :=
  C4_round_trip_protocol ⟨1⟩ ⟨0⟩ ⟨∅, []⟩ ⟨∅, []⟩ ⟨"2+2", "4"⟩ (by decide)

/-- C5: submitting an interaction, on any chain whatsoever, changes no
local state and emits exactly one message, `VerifySignature` carrying that
interaction, addressed to the creation chain. -/
theorem C5_submit_interaction_frame (runtime : Runtime) (state : Application)
    (I : ChatInteraction) :
    execute_operation runtime state (Operation.LogChatInteraction I)
      = some (state,
          [⟨runtime.creation_chain_id, Message.VerifySignature I⟩]) :=
  rfl

/-- C6: handling an incoming `VerifySignature` message mutates no local
state (the state comes back untouched and the reply does not depend on the
roster or log at all) and unconditionally emits exactly one
`LogVerifiedChatInteraction` message carrying the same interaction,
addressed to the sender chain recorded in the delivery metadata — the
payload carries no chain at all. -/
theorem C6_verify_signature_effect (chain creation sender : ChainId)
    (state : Application) (I : ChatInteraction) :
    execute_message ⟨chain, creation, some sender⟩ state
        (Message.VerifySignature I)
      = some (state, [⟨sender, Message.LogVerifiedChatInteraction I⟩]) :=
  rfl

/-- C7: processing any finite sequence of confirmation messages appends
exactly the carried interactions to the log in delivery order (so no
existing entry is altered, removed or reordered), leaves the roster alone,
and emits no outbound message; and no other operation or message handler
ever changes the log — whenever one succeeds, the log is exactly what it
was before. -/
theorem C7_log_append_only (runtime : Runtime) (state : Application)
    (interactions : List ChatInteraction) :
    run_messages runtime state
        (interactions.map Message.LogVerifiedChatInteraction)
      = some (Application.mk state.active_atoma_nodes
          (state.chat_log ++ interactions), [])
    ∧ (∀ op : Operation,
        ((execute_operation runtime state op).map
          (fun r => r.1.chat_log)).getD state.chat_log = state.chat_log)
    ∧ (∀ I : ChatInteraction,
        ((execute_message runtime state (Message.VerifySignature I)).map
          (fun r => r.1.chat_log)).getD state.chat_log = state.chat_log) := by
  refine ⟨?_, ?_, ?_⟩
  · induction interactions generalizing state with
    | nil => simp [run_messages]
    | cons i rest ih =>
        simp [run_messages, execute_message, log_verified_chat_interaction, ih]
  · intro op
    cases op with
    | UpdateNodes add remove =>
        by_cases h1 : runtime.chain_id = runtime.creation_chain_id <;>
          by_cases h2 : assert_key_sets_are_disjoint add remove = true <;>
            simp [execute_operation, update_nodes, h1, h2]
    | LogChatInteraction I =>
        simp [execute_operation, log_chat_interaction]
  · intro I
    cases h : runtime.message_sender <;>
      simp [execute_message, verify_signature, h]

/-- C10: the `UpdateNodes` payloads are lists (`Vec<PublicKey>`) and may
repeat a key; when the two lists share no key, duplicates within a single
list do not trip the disjointness check, the operation succeeds on the
creation chain, and the resulting roster — a set — still holds each key at
most once. -/
theorem C10_duplicates_in_payload_ok (runtime : Runtime)
    (state : Application) (add remove : List PublicKey)
    (hchain : runtime.chain_id = runtime.creation_chain_id)
    (hdisj : ∀ k, k ∈ add → k ∉ remove) :
    assert_key_sets_are_disjoint add remove = true
    ∧ ∃ state', update_nodes runtime state add remove = some (state', [])
        ∧ ∀ x : PublicKey, state'.active_atoma_nodes.val.count x ≤ 1 := by
  have hguard : assert_key_sets_are_disjoint add remove = true :=
    (assert_key_sets_are_disjoint_iff add remove).mpr hdisj
  refine ⟨hguard, Application.mk
      (add.foldl (fun nodes node => insert node nodes)
        (remove.foldl (fun nodes node => nodes.erase node)
          state.active_atoma_nodes))
      state.chat_log, ?_, ?_⟩
  · unfold update_nodes
    rw [if_pos hchain, if_pos hguard]
  · intro x
    exact Multiset.nodup_iff_count_le_one.mp (Finset.nodup _) x

/-- Witness for C10: `add` repeats `pk 1`, `remove` is `[pk 2]`. -/
theorem C10_duplicates_in_payload_ok_witness :
    assert_key_sets_are_disjoint [pk 1, pk 1] [pk 2] = true
    ∧ ∃ state', update_nodes ⟨⟨0⟩, ⟨0⟩, none⟩ ⟨∅, []⟩ [pk 1, pk 1] [pk 2]
          = some (state', [])
        ∧ ∀ x : PublicKey, state'.active_atoma_nodes.val.count x ≤ 1 :=
  C10_duplicates_in_payload_ok ⟨⟨0⟩, ⟨0⟩, none⟩ ⟨∅, []⟩ [pk 1, pk 1] [pk 2]
    rfl (by decide)

end AtomaDemo
